import Mathlib

/-!
Verification of `detection-worker.js` (basket-experiments).

The worker is shallowly embedded: JS `Float32Array` cells become `Option ℚ`
(`none` standing for NaN, which arises from reading past the end of a typed
array), byte buffers become `List Nat`, message payloads and replies become
inductive types, and the outcomes of the external effects (`fetch` +
`ort.InferenceSession.create`, `session.run`, `performance.now`) are passed
in as explicit arguments, since the worker only consumes their results.
-/

namespace DetectionWorker

/-- A model float value: a rational, or `none` for NaN (a JS typed-array
read past the end yields `undefined`, and `undefined / 255.0` is NaN). -/
abbrev F := Option ℚ

/-- Division of a float value by a nonzero constant (`x / 255.0`). -/
def fdiv (x : F) (c : ℚ) : F := x.map (fun v => v / c)

/-- `pixelData[j]` as a float value: the byte at index `j`, or NaN
(`none`) when `j` is out of range. -/
def readByte (d : List Nat) (j : Nat) : F := d[j]?.map (fun b => (b : ℚ))

/-- `new Uint8ClampedArray(data)` clamps each entry to `[0, 255]`; for the
`Nat`-valued byte sequences of this model that is `min · 255`.  When the
incoming `data` is already a typed byte array the clamp is the identity. -/
def uint8Clamp (b : Nat) : Nat := min b 255

/-- The `imageData` payload of a `PROCESS_FRAME` message:
`{data, width, height}` with an interleaved RGBA byte buffer. -/
structure ImageData where
  data : List Nat
  width : Nat
  height : Nat
deriving DecidableEq

/-- An `ort.Tensor` as the worker builds it: element type, flat float
data, and the declared dims. -/
structure Tensor where
  dtype : String
  data : List F
  dims : List Nat
deriving DecidableEq

/-- Declared in the source (`const MODEL_INPUT_SIZE = 640`) and never
consulted anywhere in the worker. -/
def MODEL_INPUT_SIZE : Nat := 640

/-- One iteration of the preprocessing loop (lines 152-159): read the
R, G, B bytes of pixel `i` at offsets `4i`, `4i+1`, `4i+2`, divide by
255.0, and store them at plane offsets `i`, `i + wh`, `i + 2*wh`, where
`wh = width * height`.  `List.set` ignores an out-of-range index exactly
as a JS `Float32Array` store does. -/
def preprocessStep (p : List Nat) (wh : Nat) (float32Data : List F) (i : Nat) : List F :=
  let r := fdiv (readByte p (i * 4)) 255
  let g := fdiv (readByte p (i * 4 + 1)) 255
  let b := fdiv (readByte p (i * 4 + 2)) 255
  ((float32Data.set i r).set (i + wh) g).set (i + 2 * wh) b

/-- The whole loop over `i < pixelData.length / 4`, started on the
zero-initialised `new Float32Array(3 * width * height)`.  The JS bound
`i < pixelData.length / 4` uses real division, so the iteration count is
the ceiling `(length + 3) / 4`. -/
def preprocessLoop (p : List Nat) (wh : Nat) : List F :=
  (List.range ((p.length + 3) / 4)).foldl (preprocessStep p wh)
    (List.replicate (3 * wh) (some 0))

/-- `preprocessImageData` (lines 140-162): convert interleaved RGBA-8 to a
planar float tensor declared with dims `[1, 3, width, height]`. -/
def preprocessImageData (imageData : ImageData) : Tensor :=
  let pixelData := imageData.data.map uint8Clamp
  { dtype := "float32"
    data := preprocessLoop pixelData (imageData.width * imageData.height)
    dims := [1, 3, imageData.width, imageData.height] }

/-- An ONNX session as the worker observes it: the declared input and
output tensor name lists (`session.inputNames`, `session.outputNames`).
The handle itself is opaque; two sessions with the same name lists are
indistinguishable to the worker's code. -/
structure Session where
  inputNames : List String
  outputNames : List String
deriving DecidableEq

deriving instance DecidableEq for Except

/-- A JS value as it appears in an outbound message field: a number or a
string. -/
inductive JSVal where
  | num (value : ℚ)
  | str (value : String)
deriving DecidableEq

/-- Whether a JS value is a number. -/
def JSVal.isNum : JSVal → Bool
  | .num _ => true
  | .str _ => false

/-- JS `Number.prototype.toFixed(2)`: the number rendered as a decimal
STRING with exactly two fraction digits (nearest rounding; elapsed times
are nonnegative, the only case the worker produces).  What matters to the
protocol claims is that the result is a string, not a number. -/
def toFixed2 (q : ℚ) : String :=
  let c : Int := Rat.floor (q * 100 + 1 / 2)
  let frac : Nat := c.natAbs % 100
  (if c < 0 then "-" else "") ++ toString (c.natAbs / 100) ++ "." ++
    (if frac < 10 then "0" else "") ++ toString frac

/-- JS `names[0]` then used as an object key: element 0 of the array,
with the `undefined` of an empty array coerced to the key "undefined". -/
def jsIndex0 (names : List String) : String := names.getD 0 "undefined"

/-- The `data` payload of a PROCESS_FRAME message: `imageData`,
`frameId`, `timestamp`. -/
structure FrameData where
  imageData : ImageData
  frameId : Nat
  timestamp : ℚ
deriving DecidableEq

/-- A tensor as returned by the inference engine: flat float data plus
dims.  `new Float32Array(outputTensor.data)` copies the data unchanged. -/
structure TensorOut where
  data : List F
  dims : List Nat
deriving DecidableEq

/-- The result object of `session.run`: output name to tensor map. -/
abbrev RunResults := List (String × TensorOut)

/-- Outbound messages posted with `self.postMessage`. -/
inductive OutMsg where
  | modelLoaded (inputNames outputNames : List String)
  | frameProcessed (frameId : Nat) (timestamp : ℚ) (output : TensorOut)
      (processingTime : JSVal)
  | error (error : String) (frameId : Option Nat)
deriving DecidableEq

/-- The `frameId` field carried by an outbound message, if any: the
ERROR message constructor includes one only when the source spells a
`frameId:` property (line 135); the not-initialized ERROR (lines 74-77)
and the init-failure ERROR (lines 65-68) have none. -/
def OutMsg.frameIdField : OutMsg → Option Nat
  | .frameProcessed frameId _ _ _ => some frameId
  | .error _ frameId => frameId
  | .modelLoaded _ _ => none

/-- The message kind tag (the `type:` field) of an outbound message. -/
def OutMsg.kind : OutMsg → String
  | .modelLoaded _ _ => "MODEL_LOADED"
  | .frameProcessed _ _ _ _ => "FRAME_PROCESSED"
  | .error _ _ => "ERROR"

/-- Whether the `processingTime` field of a FRAME_PROCESSED message is a
number (`none` for the other message kinds, which have no such field). -/
def OutMsg.processingTimeIsNum : OutMsg → Option Bool
  | .frameProcessed _ _ _ processingTime => some processingTime.isNum
  | _ => none

/-- The worker's mutable state: the single global `let session = null`
variable (line 9). -/
structure WorkerState where
  session : Option Session
deriving DecidableEq

/-- A record of one `session.run` invocation: the session object the
call was made on, the input name the tensor was bound to
(`feeds[session.inputNames[0]] = inputTensor`, line 95), and the tensor. -/
structure RunCall where
  sess : Session
  inputName : String
  input : Tensor
deriving DecidableEq

/-- What one handler invocation produces: the worker state afterwards,
the messages posted (in order), and the engine calls performed. -/
structure StepResult where
  state : WorkerState
  sent : List OutMsg
  runCalls : List RunCall
deriving DecidableEq

/-- `initModel` (lines 37-70).  The combined outcome of `fetch`,
`arrayBuffer` and `ort.InferenceSession.create` is passed in as
`loadResult`; a rejection anywhere in that chain lands in the catch
block, which posts `Failed to load model: ...` (no frameId field) and
leaves `session` untouched.  On success line 52 overwrites `session`
with the new session and MODEL_LOADED is posted with its name lists. -/
def initModel (st : WorkerState) (loadResult : Except String Session) : StepResult :=
  match loadResult with
  | .ok newSession =>
      { state := { session := some newSession }
        sent := [OutMsg.modelLoaded newSession.inputNames newSession.outputNames]
        runCalls := [] }
  | .error msg =>
      { state := st
        sent := [OutMsg.error ("Failed to load model: " ++ msg) none]
        runCalls := [] }

/-- The TypeError message raised when `results[outputName]` is
`undefined` and line 111 reads `outputTensor.data` (the model keeps one
fixed text for it). -/
def undefinedDataMsg : String := "Cannot read properties of undefined"

/-- `processFrame` (lines 72-138), run to completion with no interleaved
handler (for the interleaved behaviour see `asyncStep`).  `runResult` is
the outcome of `await session.run(feeds)` (line 96); `now n` is the value
of the n-th call to `performance.now()` in this invocation — 0 is
`startTime` (line 82) and 5 is `endTime` (line 103); calls 1-4 only feed
`console.log` timings and are not observable in messages.  Every failure
inside the try block is caught and posted as ERROR with the `frameId`
field (lines 132-136); the missing-session guard (lines 73-79) posts
ERROR with no frameId field and performs no encode and no engine call. -/
def processFrame (st : WorkerState) (data : FrameData)
    (runResult : Except String RunResults) (now : Nat → ℚ) : StepResult :=
  match st.session with
  | none =>
      { state := st
        sent := [OutMsg.error "Model not initialized" none]
        runCalls := [] }
  | some sess =>
      let startTime := now 0
      let inputTensor := preprocessImageData data.imageData
      let call : RunCall :=
        { sess := sess, inputName := jsIndex0 sess.inputNames, input := inputTensor }
      match runResult with
      | .error msg =>
          { state := st
            sent := [OutMsg.error ("Processing failed: " ++ msg) (some data.frameId)]
            runCalls := [call] }
      | .ok results =>
          let outputName := jsIndex0 sess.outputNames
          match results.lookup outputName with
          | none =>
              { state := st
                sent := [OutMsg.error ("Processing failed: " ++ undefinedDataMsg)
                  (some data.frameId)]
                runCalls := [call] }
          | some outputTensor =>
              let endTime := now 5
              let totalTime := toFixed2 (endTime - startTime)
              { state := st
                sent := [OutMsg.frameProcessed data.frameId data.timestamp
                  { data := outputTensor.data, dims := outputTensor.dims }
                  (JSVal.str totalTime)]
                runCalls := [call] }

/-- The `data` field of an inbound message together with the outcomes of
the external effects its handler would perform: `modelLoad` for an INIT,
`runResult` and the clock `now` for a PROCESS_FRAME.  Each JS handler
reads only the fields of `data` it uses, so the unused fields of the
other kind are simply ignored. -/
structure MsgData where
  modelLoad : Except String Session
  frame : FrameData
  runResult : Except String RunResults
  now : Nat → ℚ

/-- `self.onmessage` (lines 13-35): switch on the `type` string.  INIT
and PROCESS_FRAME dispatch to their handlers; the default branch calls
`console.warn` only — it posts nothing and touches no state. -/
def handleMessage (st : WorkerState) (type : String) (data : MsgData) : StepResult :=
  if type = "INIT" then initModel st data.modelLoad
  else if type = "PROCESS_FRAME" then processFrame st data.frame data.runResult data.now
  else { state := st, sent := [], runCalls := [] }

/-- Handle a list of inbound messages one after the other, each run to
completion (the event-loop behaviour when no handler interleaves),
collecting posted messages and engine calls in order. -/
def runWorker (st : WorkerState) (msgs : List (String × MsgData)) : StepResult :=
  msgs.foldl
    (fun acc msg =>
      let r := handleMessage acc.state msg.1 msg.2
      { state := r.state
        sent := acc.sent ++ r.sent
        runCalls := acc.runCalls ++ r.runCalls })
    { state := st, sent := [], runCalls := [] }

/-- State of the interleaved (event-loop) model: the global `session`,
the loads started by INIT handlers that are suspended at an `await`
(lines 39-52), and the `session.run` calls in flight (line 96), each
remembering the session object it was started on and its frameId. -/
structure AsyncState where
  session : Option Session
  pendingLoads : List (Except String Session)
  pendingRuns : List (Session × Nat)
deriving DecidableEq

/-- One event-loop step of the interleaved model. -/
inductive AsyncLabel where
  | recvInit (loadResult : Except String Session)
  | recvFrame (frameId : Nat)
  | finishLoad
  | finishRun
deriving DecidableEq

/-- Interleaved semantics of the worker, modelled from the `await`
points of the source.  `recvInit`: onmessage dispatches INIT and
`initModel` suspends at its first `await` (line 39) — the code has no
guard, queue or rejection, so this happens even while runs are in
flight.  `recvFrame`: onmessage dispatches PROCESS_FRAME; with no
session it replies immediately, otherwise the handler reads the CURRENT
`session` (lines 94-96) and suspends in `session.run`.  `finishLoad`:
the oldest pending load settles; on success line 52 assigns the global
`session`, regardless of in-flight runs.  `finishRun`: the oldest
pending run settles and its handler resumes (it will then re-read the
global `session` at line 100). -/
def asyncStep (st : AsyncState) : AsyncLabel → AsyncState
  | .recvInit loadResult =>
      { st with pendingLoads := st.pendingLoads ++ [loadResult] }
  | .recvFrame frameId =>
      match st.session with
      | none => st
      | some s => { st with pendingRuns := st.pendingRuns ++ [(s, frameId)] }
  | .finishLoad =>
      match st.pendingLoads with
      | [] => st
      | .ok s :: rest => { st with session := some s, pendingLoads := rest }
      | .error _ :: rest => { st with pendingLoads := rest }
  | .finishRun =>
      match st.pendingRuns with
      | [] => st
      | _ :: rest => { st with pendingRuns := rest }

/-- Run the interleaved model over a schedule of event-loop steps. -/
def asyncRun (st : AsyncState) (labels : List AsyncLabel) : AsyncState :=
  labels.foldl asyncStep st

/-! ### Properties of the preprocessing loop -/

theorem preprocessStep_length (p : List Nat) (wh : Nat) (l : List F) (i : Nat) :
    (preprocessStep p wh l i).length = l.length := by
  simp [preprocessStep]

theorem preprocessFold_length (p : List Nat) (wh : Nat) (idxs : List Nat) (l : List F) :
    (idxs.foldl (preprocessStep p wh) l).length = l.length := by
  induction idxs generalizing l with
  | nil => rfl
  | cons i rest ih => rw [List.foldl_cons, ih, preprocessStep_length]

theorem preprocessLoop_length (p : List Nat) (wh : Nat) :
    (preprocessLoop p wh).length = 3 * wh := by
  unfold preprocessLoop
  rw [preprocessFold_length, List.length_replicate]

/-- Contents of the partial loop: after processing pixel indices `< n`,
plane position `i + k * wh` holds the normalised byte `p[4i+k] / 255` when
`i < n` and the initial `0.0` otherwise. -/
theorem preprocessFold_getElem (p : List Nat) (wh : Nat) :
    ∀ n, n ≤ wh → ∀ i, i < wh →
      (((List.range n).foldl (preprocessStep p wh)
          (List.replicate (3 * wh) (some 0)))[i]? =
        some (if i < n then fdiv (readByte p (i * 4)) 255 else some 0)) ∧
      (((List.range n).foldl (preprocessStep p wh)
          (List.replicate (3 * wh) (some 0)))[i + wh]? =
        some (if i < n then fdiv (readByte p (i * 4 + 1)) 255 else some 0)) ∧
      (((List.range n).foldl (preprocessStep p wh)
          (List.replicate (3 * wh) (some 0)))[i + 2 * wh]? =
        some (if i < n then fdiv (readByte p (i * 4 + 2)) 255 else some 0)) := by
  intro n
  induction n with
  | zero =>
      intro _ i hi
      refine ⟨?_, ?_, ?_⟩ <;>
        simp [List.getElem?_replicate_of_lt, show i < 3 * wh by omega,
          show i + wh < 3 * wh by omega, show i + 2 * wh < 3 * wh by omega]
  | succ n ih =>
      intro hn i hi
      have hnw : n < wh := by omega
      obtain ⟨ih1, ih2, ih3⟩ := ih (by omega) i hi
      have hlen : ((List.range n).foldl (preprocessStep p wh)
          (List.replicate (3 * wh) (some 0)) : List F).length = 3 * wh := by
        rw [preprocessFold_length, List.length_replicate]
      rw [List.range_succ, List.foldl_append, List.foldl_cons, List.foldl_nil]
      set L := (List.range n).foldl (preprocessStep p wh)
        (List.replicate (3 * wh) (some 0)) with hL
      refine ⟨?_, ?_, ?_⟩ <;> by_cases hin : i = n
      · subst hin
        rw [preprocessStep,
          List.getElem?_set_ne (show i + 2 * wh ≠ i by omega),
          List.getElem?_set_ne (show i + wh ≠ i by omega),
          List.getElem?_set_eq_of_lt _ (by omega : i < L.length)]
        simp
      · rw [preprocessStep,
          List.getElem?_set_ne (show n + 2 * wh ≠ i by omega),
          List.getElem?_set_ne (show n + wh ≠ i by omega),
          List.getElem?_set_ne (show n ≠ i from fun h => hin h.symm), ih1]
        exact congrArg some (if_congr (by omega) rfl rfl).symm
      · subst hin
        rw [preprocessStep,
          List.getElem?_set_ne (show i + 2 * wh ≠ i + wh by omega),
          List.getElem?_set_eq_of_lt _
            (by rw [List.length_set]; omega : i + wh < (L.set i _).length)]
        simp
      · rw [preprocessStep,
          List.getElem?_set_ne (show n + 2 * wh ≠ i + wh by omega),
          List.getElem?_set_ne (show n + wh ≠ i + wh by omega),
          List.getElem?_set_ne (show n ≠ i + wh by omega), ih2]
        exact congrArg some (if_congr (by omega) rfl rfl).symm
      · subst hin
        rw [preprocessStep,
          List.getElem?_set_eq_of_lt _
            (by rw [List.length_set, List.length_set]; omega :
              i + 2 * wh < ((L.set i _).set (i + wh) _).length)]
        simp
      · rw [preprocessStep,
          List.getElem?_set_ne (show n + 2 * wh ≠ i + 2 * wh by omega),
          List.getElem?_set_ne (show n + wh ≠ i + 2 * wh by omega),
          List.getElem?_set_ne (show n ≠ i + 2 * wh by omega), ih3]
        exact congrArg some (if_congr (by omega) rfl rfl).symm

/-- On a full-length buffer (`length = wh * 4`), plane `k` of the loop
output at pixel `i` is the normalised byte at `i * 4 + k`. -/
theorem preprocessLoop_getElem (p : List Nat) (wh : Nat) (hlen : p.length = wh * 4)
    (i k : Nat) (hi : i < wh) (hk : k < 3) :
    (preprocessLoop p wh)[i + k * wh]? = some (fdiv (readByte p (i * 4 + k)) 255) := by
  have hN : (p.length + 3) / 4 = wh := by omega
  obtain ⟨h1, h2, h3⟩ := preprocessFold_getElem p wh wh le_rfl i hi
  rw [if_pos hi] at h1 h2 h3
  unfold preprocessLoop
  rw [hN]
  interval_cases k
  · simpa using h1
  · simpa using h2
  · simpa using h3

/-- Reads of the preprocessing loop agree on two buffers that have equal
length and agree on every non-alpha byte (indices with `j % 4 ≠ 3`). -/
theorem preprocessLoop_alpha_ext (d1 d2 : List Nat) (wh : Nat)
    (hlen : d1.length = d2.length)
    (hagree : ∀ j, j % 4 ≠ 3 → d1[j]? = d2[j]?) :
    preprocessLoop (d1.map uint8Clamp) wh = preprocessLoop (d2.map uint8Clamp) wh := by
  have hread : ∀ j, j % 4 ≠ 3 →
      readByte (d1.map uint8Clamp) j = readByte (d2.map uint8Clamp) j := by
    intro j hj
    simp only [readByte, List.getElem?_map, hagree j hj]
  unfold preprocessLoop
  rw [List.length_map, List.length_map, hlen]
  exact List.foldl_ext _ _ _ (by
    intro acc i _
    simp only [preprocessStep,
      hread (i * 4) (by omega), hread (i * 4 + 1) (by omega),
      hread (i * 4 + 2) (by omega)])

/-- C1: on a buffer of length `width * height * 4` whose entries are
bytes, `preprocessImageData` produces exactly `3 * width * height` float
values, each a genuine number in `[0, 1]`; the value at plane offset
`i + k * width * height` is `pixels[4 * i + k] / 255.0` for every pixel
`i` and channel `k < 3`; and the output does not depend on the alpha
bytes (indices `4 * i + 3`). -/
theorem preprocessImageData_spec (img : ImageData)
    (hlen : img.data.length = img.width * img.height * 4)
    (hbytes : ∀ b ∈ img.data, b ≤ 255) :
    (preprocessImageData img).data.length = 3 * (img.width * img.height) ∧
    (∀ v ∈ (preprocessImageData img).data, ∃ q : ℚ, v = some q ∧ 0 ≤ q ∧ q ≤ 1) ∧
    (∀ i, i < img.width * img.height → ∀ k, k < 3 →
      (preprocessImageData img).data[i + k * (img.width * img.height)]? =
        some (some ((img.data.getD (4 * i + k) 0 : ℚ) / 255))) ∧
    (∀ img2 : ImageData, img2.width = img.width → img2.height = img.height →
      img2.data.length = img.data.length →
      (∀ j, j % 4 ≠ 3 → img2.data[j]? = img.data[j]?) →
      preprocessImageData img2 = preprocessImageData img) := by
  set wh := img.width * img.height with hwh
  have hplen : (img.data.map uint8Clamp).length = wh * 4 := by
    rw [List.length_map, hlen]
  have hdata : (preprocessImageData img).data =
      preprocessLoop (img.data.map uint8Clamp) wh := rfl
  have hmain : ∀ i, i < wh → ∀ k, k < 3 →
      (preprocessImageData img).data[i + k * wh]? =
        some (some ((img.data.getD (4 * i + k) 0 : ℚ) / 255)) := by
    intro i hi k hk
    have hj : 4 * i + k < img.data.length := by
      rw [hlen]; omega
    have hj' : i * 4 + k < (img.data.map uint8Clamp).length := by
      rw [hplen]; omega
    rw [hdata, preprocessLoop_getElem _ _ hplen i k hi hk]
    have hj2 : i * 4 + k < img.data.length := by
      rw [List.length_map] at hj'
      exact hj'
    obtain ⟨b, hb⟩ : ∃ b, img.data[i * 4 + k]? = some b :=
      ⟨_, List.getElem?_eq_getElem hj2⟩
    have hbyte : (img.data.map uint8Clamp)[i * 4 + k]? = some (uint8Clamp b) := by
      rw [List.getElem?_map, hb]
      rfl
    have hcl : uint8Clamp b = b :=
      Nat.min_eq_left (hbytes b (List.getElem?_mem hb))
    have hgd : img.data.getD (4 * i + k) 0 = b := by
      rw [List.getD_eq_getElem?_getD, show 4 * i + k = i * 4 + k by omega, hb]
      rfl
    rw [readByte, hbyte, hcl, hgd]
    rfl
  refine ⟨?_, ?_, hmain, ?_⟩
  · rw [hdata, preprocessLoop_length]
  · intro v hv
    rw [hdata] at hv
    obtain ⟨idx, hidx⟩ := List.mem_iff_getElem?.mp hv
    have hidxlt : idx < 3 * wh := by
      have := (List.getElem?_eq_some_iff.mp hidx).1
      rwa [preprocessLoop_length] at this
    have hwh0 : 0 < wh := by
      by_contra h
      omega
    have hi : idx % wh < wh := Nat.mod_lt _ hwh0
    have hk : idx / wh < 3 := by
      rw [Nat.div_lt_iff_lt_mul hwh0]
      omega
    have hdec : idx % wh + idx / wh * wh = idx := by
      rw [Nat.mul_comm]
      exact Nat.mod_add_div idx wh
    have := hmain (idx % wh) hi (idx / wh) hk
    rw [hdata, hdec, hidx] at this
    obtain rfl : v = some ((img.data.getD (4 * (idx % wh) + idx / wh) 0 : ℚ) / 255) :=
      Option.some.inj this
    refine ⟨_, rfl, ?_, ?_⟩
    · positivity
    · rw [div_le_one (by norm_num)]
      have hb : img.data.getD (4 * (idx % wh) + idx / wh) 0 ≤ 255 := by
        rw [List.getD_eq_getElem?_getD]
        cases hcase : img.data[4 * (idx % wh) + idx / wh]? with
        | none => simp
        | some b =>
            have : b ∈ img.data := List.getElem?_mem hcase
            simpa using hbytes b this
      exact_mod_cast hb
  · intro img2 hw2 hh2 hlen2 hagree
    have hdims : (preprocessImageData img2).dims = (preprocessImageData img).dims := by
      simp [preprocessImageData, hw2, hh2]
    have hdata2 : (preprocessImageData img2).data = (preprocessImageData img).data := by
      show preprocessLoop (img2.data.map uint8Clamp) (img2.width * img2.height) =
        preprocessLoop (img.data.map uint8Clamp) (img.width * img.height)
      rw [hw2, hh2]
      exact preprocessLoop_alpha_ext _ _ _ hlen2 hagree
    cases h1 : preprocessImageData img2
    cases h2 : preprocessImageData img
    rw [h1, h2] at hdims hdata2
    simp_all [preprocessImageData]

/-- C1 witness: the theorem applied to the 1 x 1 image `[10, 20, 30, 40]`. -/
theorem preprocessImageData_spec_witness :
    (([10, 20, 30, 40] : List Nat).length = 1 * 1 * 4 ∧
      ∀ b ∈ ([10, 20, 30, 40] : List Nat), b ≤ 255) ∧
    ((preprocessImageData ⟨[10, 20, 30, 40], 1, 1⟩).data.length = 3 * (1 * 1) ∧
    (∀ v ∈ (preprocessImageData ⟨[10, 20, 30, 40], 1, 1⟩).data,
      ∃ q : ℚ, v = some q ∧ 0 ≤ q ∧ q ≤ 1) ∧
    (∀ i, i < 1 * 1 → ∀ k, k < 3 →
      (preprocessImageData ⟨[10, 20, 30, 40], 1, 1⟩).data[i + k * (1 * 1)]? =
        some (some ((([10, 20, 30, 40] : List Nat).getD (4 * i + k) 0 : ℚ) / 255))) ∧
    (∀ img2 : ImageData, img2.width = 1 → img2.height = 1 →
      img2.data.length = ([10, 20, 30, 40] : List Nat).length →
      (∀ j, j % 4 ≠ 3 → img2.data[j]? = ([10, 20, 30, 40] : List Nat)[j]?) →
      preprocessImageData img2 = preprocessImageData ⟨[10, 20, 30, 40], 1, 1⟩)) :=
  ⟨⟨by decide, by decide⟩,
    preprocessImageData_spec ⟨[10, 20, 30, 40], 1, 1⟩ (by decide) (by decide)⟩

/-- C7: for an input whose width or height differs from
`MODEL_INPUT_SIZE`, `preprocessImageData` still runs (no dimension
validation anywhere) and declares dims `[1, 3, width, height]`, encoding
the actual supplied width and height. -/
theorem preprocess_no_dimension_validation (img : ImageData)
    (_hmismatch : img.width ≠ MODEL_INPUT_SIZE ∨ img.height ≠ MODEL_INPUT_SIZE) :
    (preprocessImageData img).dims = [1, 3, img.width, img.height] ∧
    (preprocessImageData img).data.length = 3 * (img.width * img.height) :=
  ⟨rfl, preprocessLoop_length _ _⟩

/-- C7 witness: a 2 x 2 image, not the 640 x 640 the model expects. -/
theorem preprocess_no_dimension_validation_witness :
    ((2 : Nat) ≠ MODEL_INPUT_SIZE ∨ (2 : Nat) ≠ MODEL_INPUT_SIZE) ∧
    ((preprocessImageData ⟨List.replicate 16 0, 2, 2⟩).dims = [1, 3, 2, 2] ∧
      (preprocessImageData ⟨List.replicate 16 0, 2, 2⟩).data.length = 3 * (2 * 2)) :=
  ⟨by decide,
    preprocess_no_dimension_validation ⟨List.replicate 16 0, 2, 2⟩ (by decide)⟩

/-- C2: a PROCESS_FRAME handled while no session is loaded posts exactly
one typed ERROR reply, performs no encoding and no engine call (the
guard returns before the try block), and leaves the worker state — the
`session` variable — unchanged. -/
theorem processFrame_not_initialized (st : WorkerState) (hs : st.session = none)
    (data : FrameData) (runResult : Except String RunResults) (now : Nat → ℚ) :
    processFrame st data runResult now =
      { state := st
        sent := [OutMsg.error "Model not initialized" none]
        runCalls := [] } := by
  unfold processFrame
  rw [hs]

/-- C2 witness: the theorem at a concrete uninitialized worker. -/
theorem processFrame_not_initialized_witness :
    (⟨none⟩ : WorkerState).session = none ∧
    processFrame ⟨none⟩ ⟨⟨[], 0, 0⟩, 7, 0⟩ (.error "fault") (fun _ => 0) =
      { state := ⟨none⟩
        sent := [OutMsg.error "Model not initialized" none]
        runCalls := [] } :=
  ⟨rfl, processFrame_not_initialized ⟨none⟩ rfl ⟨⟨[], 0, 0⟩, 7, 0⟩ (.error "fault")
    (fun _ => 0)⟩

/-- C3 counterexample: the PROCESS_FRAME with frameId 7 received while
no session is loaded yields exactly one reply, and that reply carries no
frameId at all — the not-initialized ERROR (lines 74-77) has no
`frameId` property, so this failure path does not carry the request's
frameId. -/
theorem processFrame_frameId_counterexample :
    (processFrame ⟨none⟩ ⟨⟨[], 0, 0⟩, 7, 0⟩ (.error "fault") (fun _ => 0)).sent.map
        OutMsg.frameIdField = [none] ∧
    (none : Option Nat) ≠ some 7 := by
  decide

/-- C3 amended: whenever a session is loaded, the single reply to a
PROCESS_FRAME — FrameProcessed on success, ERROR on a run rejection or
on a missing output — carries that request's own frameId; only the
not-initialized rejection lacks it. -/
theorem processFrame_frameId_when_ready (st : WorkerState) (s : Session)
    (hs : st.session = some s) (data : FrameData)
    (runResult : Except String RunResults) (now : Nat → ℚ) :
    (processFrame st data runResult now).sent.map OutMsg.frameIdField =
      [some data.frameId] := by
  unfold processFrame
  rw [hs]
  cases runResult with
  | error msg => rfl
  | ok results =>
      cases h : results.lookup (jsIndex0 s.outputNames) with
      | none => simp only [h]; rfl
      | some t => simp only [h]; rfl

/-- C3 amended witness: a loaded worker whose run is rejected still tags
the ERROR with frameId 7. -/
theorem processFrame_frameId_when_ready_witness :
    (⟨some ⟨["images"], ["output0"]⟩⟩ : WorkerState).session =
      some ⟨["images"], ["output0"]⟩ ∧
    (processFrame ⟨some ⟨["images"], ["output0"]⟩⟩ ⟨⟨[], 0, 0⟩, 7, 0⟩
        (.error "shape mismatch") (fun _ => 0)).sent.map OutMsg.frameIdField =
      [some 7] :=
  ⟨rfl, processFrame_frameId_when_ready _ ⟨["images"], ["output0"]⟩ rfl _ _ _⟩

/-- C4 counterexample: after a successful Init, a failing Init, and then
a PROCESS_FRAME, the worker does NOT reply "Model not initialized" — it
runs inference against the session retained from the first Init and
posts FRAME_PROCESSED, so the claim's universally quantified scenario
fails once a session already exists. -/
theorem init_failure_counterexample :
    (runWorker ⟨none⟩
      [("INIT", ⟨.ok ⟨["in1"], ["out1"]⟩, ⟨⟨[], 0, 0⟩, 0, 0⟩, .error "", fun _ => 0⟩),
       ("INIT", ⟨.error "invalid model bytes", ⟨⟨[], 0, 0⟩, 0, 0⟩, .error "", fun _ => 0⟩),
       ("PROCESS_FRAME", ⟨.error "", ⟨⟨[10, 20, 30, 40], 1, 1⟩, 7, 0⟩,
          .ok [("out1", ⟨[some 1], [1]⟩)], fun _ => 0⟩)]).sent.map OutMsg.kind =
      ["MODEL_LOADED", "ERROR", "FRAME_PROCESSED"] ∧
    (runWorker ⟨none⟩
      [("INIT", ⟨.ok ⟨["in1"], ["out1"]⟩, ⟨⟨[], 0, 0⟩, 0, 0⟩, .error "", fun _ => 0⟩),
       ("INIT", ⟨.error "invalid model bytes", ⟨⟨[], 0, 0⟩, 0, 0⟩, .error "", fun _ => 0⟩),
       ("PROCESS_FRAME", ⟨.error "", ⟨⟨[10, 20, 30, 40], 1, 1⟩, 7, 0⟩,
          .ok [("out1", ⟨[some 1], [1]⟩)], fun _ => 0⟩)]).sent.map OutMsg.frameIdField =
      [none, none, some 7] ∧
    (runWorker ⟨none⟩
      [("INIT", ⟨.ok ⟨["in1"], ["out1"]⟩, ⟨⟨[], 0, 0⟩, 0, 0⟩, .error "", fun _ => 0⟩),
       ("INIT", ⟨.error "invalid model bytes", ⟨⟨[], 0, 0⟩, 0, 0⟩, .error "", fun _ => 0⟩),
       ("PROCESS_FRAME", ⟨.error "", ⟨⟨[10, 20, 30, 40], 1, 1⟩, 7, 0⟩,
          .ok [("out1", ⟨[some 1], [1]⟩)], fun _ => 0⟩)]).runCalls.length = 1 := by
  refine ⟨by decide, by decide, by decide⟩

/-- C4 amended: while NO session is loaded, a failing Init posts ERROR
"Failed to load model: <cause>" (a descriptive cause, no frameId), the
session stays unloaded, a PROCESS_FRAME handled next is rejected with
"Model not initialized" without any engine call, and a later Init retry
is still accepted — when its load succeeds it installs the new session. -/
theorem init_failure_fresh (st : WorkerState) (hs : st.session = none)
    (cause : String) (s2 : Session) (d : FrameData)
    (rr : Except String RunResults) (now : Nat → ℚ) :
    (initModel st (.error cause)).sent =
      [OutMsg.error ("Failed to load model: " ++ cause) none] ∧
    (initModel st (.error cause)).state.session = none ∧
    (processFrame (initModel st (.error cause)).state d rr now).sent =
      [OutMsg.error "Model not initialized" none] ∧
    (processFrame (initModel st (.error cause)).state d rr now).runCalls = [] ∧
    (initModel (initModel st (.error cause)).state (.ok s2)).state.session = some s2 := by
  refine ⟨rfl, hs, ?_, ?_, rfl⟩ <;>
    · rw [show (initModel st (.error cause)).state = st from rfl,
        processFrame_not_initialized st hs d rr now]

/-- C4 amended witness: the theorem at a concrete fresh worker. -/
theorem init_failure_fresh_witness :
    (⟨none⟩ : WorkerState).session = none ∧
    ((initModel ⟨none⟩ (.error "invalid model bytes")).sent =
      [OutMsg.error ("Failed to load model: " ++ "invalid model bytes") none] ∧
    (initModel ⟨none⟩ (.error "invalid model bytes")).state.session = none ∧
    (processFrame (initModel ⟨none⟩ (.error "invalid model bytes")).state
        ⟨⟨[], 0, 0⟩, 7, 0⟩ (.error "") (fun _ => 0)).sent =
      [OutMsg.error "Model not initialized" none] ∧
    (processFrame (initModel ⟨none⟩ (.error "invalid model bytes")).state
        ⟨⟨[], 0, 0⟩, 7, 0⟩ (.error "") (fun _ => 0)).runCalls = [] ∧
    (initModel (initModel ⟨none⟩ (.error "invalid model bytes")).state
        (.ok ⟨["in2"], ["out2"]⟩)).state.session = some ⟨["in2"], ["out2"]⟩) :=
  ⟨rfl, init_failure_fresh ⟨none⟩ rfl "invalid model bytes" ⟨["in2"], ["out2"]⟩
    ⟨⟨[], 0, 0⟩, 7, 0⟩ (.error "") (fun _ => 0)⟩

/-- C5: two successful sequential loads leave the second session as the
worker's session, and a PROCESS_FRAME handled afterwards binds its input
tensor to the SECOND session's first declared input name and reads the
reply from the SECOND session's first declared output name. -/
theorem reload_uses_second_session (st : WorkerState) (s1 s2 : Session)
    (d : FrameData) (t : TensorOut) (results : RunResults)
    (hlook : results.lookup (jsIndex0 s2.outputNames) = some t) (now : Nat → ℚ) :
    (runWorker st [("INIT", ⟨.ok s1, d, .ok results, now⟩),
        ("INIT", ⟨.ok s2, d, .ok results, now⟩)]).state.session = some s2 ∧
    (processFrame (runWorker st [("INIT", ⟨.ok s1, d, .ok results, now⟩),
        ("INIT", ⟨.ok s2, d, .ok results, now⟩)]).state d (.ok results) now).runCalls =
      [⟨s2, jsIndex0 s2.inputNames, preprocessImageData d.imageData⟩] ∧
    (processFrame (runWorker st [("INIT", ⟨.ok s1, d, .ok results, now⟩),
        ("INIT", ⟨.ok s2, d, .ok results, now⟩)]).state d (.ok results) now).sent =
      [OutMsg.frameProcessed d.frameId d.timestamp ⟨t.data, t.dims⟩
        (JSVal.str (toFixed2 (now 5 - now 0)))] := by
  have hstate : (runWorker st [("INIT", ⟨.ok s1, d, .ok results, now⟩),
      ("INIT", ⟨.ok s2, d, .ok results, now⟩)]).state = ⟨some s2⟩ := rfl
  refine ⟨by rw [hstate], ?_, ?_⟩ <;>
    · rw [hstate]
      unfold processFrame
      simp only [hlook]

/-- C5 witness: concrete sessions with distinct names. -/
theorem reload_uses_second_session_witness :
    ([("output0", (⟨[some 1], [1]⟩ : TensorOut))].lookup
        (jsIndex0 (⟨["images"], ["output0"]⟩ : Session).outputNames) =
      some ⟨[some 1], [1]⟩) ∧
    ((runWorker ⟨none⟩ [("INIT", ⟨.ok ⟨["a"], ["b"]⟩, ⟨⟨[0, 0, 0, 0], 1, 1⟩, 3, 5⟩,
          .ok [("output0", ⟨[some 1], [1]⟩)], fun _ => 0⟩),
        ("INIT", ⟨.ok ⟨["images"], ["output0"]⟩, ⟨⟨[0, 0, 0, 0], 1, 1⟩, 3, 5⟩,
          .ok [("output0", ⟨[some 1], [1]⟩)], fun _ => 0⟩)]).state.session =
        some ⟨["images"], ["output0"]⟩ ∧
    (processFrame (runWorker ⟨none⟩ [("INIT", ⟨.ok ⟨["a"], ["b"]⟩,
          ⟨⟨[0, 0, 0, 0], 1, 1⟩, 3, 5⟩, .ok [("output0", ⟨[some 1], [1]⟩)], fun _ => 0⟩),
        ("INIT", ⟨.ok ⟨["images"], ["output0"]⟩, ⟨⟨[0, 0, 0, 0], 1, 1⟩, 3, 5⟩,
          .ok [("output0", ⟨[some 1], [1]⟩)], fun _ => 0⟩)]).state
        ⟨⟨[0, 0, 0, 0], 1, 1⟩, 3, 5⟩ (.ok [("output0", ⟨[some 1], [1]⟩)])
        (fun _ => 0)).runCalls =
      [⟨⟨["images"], ["output0"]⟩, jsIndex0 ["images"],
        preprocessImageData ⟨[0, 0, 0, 0], 1, 1⟩⟩] ∧
    (processFrame (runWorker ⟨none⟩ [("INIT", ⟨.ok ⟨["a"], ["b"]⟩,
          ⟨⟨[0, 0, 0, 0], 1, 1⟩, 3, 5⟩, .ok [("output0", ⟨[some 1], [1]⟩)], fun _ => 0⟩),
        ("INIT", ⟨.ok ⟨["images"], ["output0"]⟩, ⟨⟨[0, 0, 0, 0], 1, 1⟩, 3, 5⟩,
          .ok [("output0", ⟨[some 1], [1]⟩)], fun _ => 0⟩)]).state
        ⟨⟨[0, 0, 0, 0], 1, 1⟩, 3, 5⟩ (.ok [("output0", ⟨[some 1], [1]⟩)])
        (fun _ => 0)).sent =
      [OutMsg.frameProcessed 3 5 ⟨[some 1], [1]⟩
        (JSVal.str (toFixed2 ((fun _ => (0 : ℚ)) 5 - (fun _ => (0 : ℚ)) 0)))]) :=
  ⟨rfl, reload_uses_second_session ⟨none⟩ ⟨["a"], ["b"]⟩ ⟨["images"], ["output0"]⟩
    ⟨⟨[0, 0, 0, 0], 1, 1⟩, 3, 5⟩ ⟨[some 1], [1]⟩ [("output0", ⟨[some 1], [1]⟩)]
    rfl (fun _ => 0)⟩

/-- C6 counterexample: a successfully processed frame (session loaded,
run resolved, output name present) gets a single FRAME_PROCESSED reply
whose `processingTime` field is NOT a number — the source stores
`(endTime - startTime).toFixed(2)` there, and `toFixed` returns a
string — contradicting the schema `processingTime: number`. -/
theorem processingTime_counterexample :
    (processFrame ⟨some ⟨["images"], ["output0"]⟩⟩ ⟨⟨[0, 0, 0, 0], 1, 1⟩, 1, 0⟩
        (.ok [("output0", ⟨[some 1], [1]⟩)]) (fun n => n)).sent.map OutMsg.kind =
      ["FRAME_PROCESSED"] ∧
    (processFrame ⟨some ⟨["images"], ["output0"]⟩⟩ ⟨⟨[0, 0, 0, 0], 1, 1⟩, 1, 0⟩
        (.ok [("output0", ⟨[some 1], [1]⟩)]) (fun n => n)).sent.map
      OutMsg.processingTimeIsNum = [some false] := by
  refine ⟨by decide, by decide⟩

/-- C6 amended: for every successfully processed frame the reply's
`processingTime` field is the string `toFixed2 (endTime - startTime)` —
a decimal string, not a number. -/
theorem processingTime_is_string (st : WorkerState) (s : Session)
    (hs : st.session = some s) (d : FrameData) (results : RunResults) (t : TensorOut)
    (hlook : results.lookup (jsIndex0 s.outputNames) = some t) (now : Nat → ℚ) :
    (processFrame st d (.ok results) now).sent =
      [OutMsg.frameProcessed d.frameId d.timestamp ⟨t.data, t.dims⟩
        (JSVal.str (toFixed2 (now 5 - now 0)))] ∧
    (JSVal.str (toFixed2 (now 5 - now 0))).isNum = false := by
  refine ⟨?_, rfl⟩
  unfold processFrame
  rw [hs]
  simp only [hlook]

/-- C6 amended witness: the theorem at a concrete successful frame. -/
theorem processingTime_is_string_witness :
    ((⟨some ⟨["images"], ["output0"]⟩⟩ : WorkerState).session =
      some ⟨["images"], ["output0"]⟩ ∧
    [("output0", (⟨[some 1], [1]⟩ : TensorOut))].lookup
        (jsIndex0 (⟨["images"], ["output0"]⟩ : Session).outputNames) =
      some ⟨[some 1], [1]⟩) ∧
    ((processFrame ⟨some ⟨["images"], ["output0"]⟩⟩ ⟨⟨[0, 0, 0, 0], 1, 1⟩, 2, 9⟩
        (.ok [("output0", ⟨[some 1], [1]⟩)]) (fun n => n)).sent =
      [OutMsg.frameProcessed 2 9 ⟨[some 1], [1]⟩
        (JSVal.str (toFixed2 ((fun n => (n : ℚ)) 5 - (fun n => (n : ℚ)) 0)))] ∧
    (JSVal.str (toFixed2 ((fun n => (n : ℚ)) 5 - (fun n => (n : ℚ)) 0))).isNum = false) :=
  ⟨⟨rfl, rfl⟩, processingTime_is_string _ ⟨["images"], ["output0"]⟩ rfl
    ⟨⟨[0, 0, 0, 0], 1, 1⟩, 2, 9⟩ [("output0", ⟨[some 1], [1]⟩)] ⟨[some 1], [1]⟩
    rfl (fun n => n)⟩

/-- C8: an inbound message whose type is neither "INIT" nor
"PROCESS_FRAME" is only logged: the worker posts no reply, performs no
engine call, and the session variable is untouched. -/
theorem unknown_message_ignored (st : WorkerState) (type : String) (data : MsgData)
    (h1 : type ≠ "INIT") (h2 : type ≠ "PROCESS_FRAME") :
    handleMessage st type data = { state := st, sent := [], runCalls := [] } := by
  unfold handleMessage
  rw [if_neg h1, if_neg h2]

/-- C8 witness: a "RESIZE" message at a loaded worker. -/
theorem unknown_message_ignored_witness :
    ("RESIZE" ≠ "INIT") ∧ ("RESIZE" ≠ "PROCESS_FRAME") ∧
    handleMessage ⟨some ⟨["a"], ["b"]⟩⟩ "RESIZE"
        ⟨.error "", ⟨⟨[], 0, 0⟩, 0, 0⟩, .error "", fun _ => 0⟩ =
      { state := ⟨some ⟨["a"], ["b"]⟩⟩, sent := [], runCalls := [] } :=
  ⟨by decide, by decide,
    unknown_message_ignored ⟨some ⟨["a"], ["b"]⟩⟩ "RESIZE"
      ⟨.error "", ⟨⟨[], 0, 0⟩, 0, 0⟩, .error "", fun _ => 0⟩
      (by decide) (by decide)⟩

/-- C9: the code does NOT serialize Init against in-flight inference.
In the interleaved model: with session `s1` loaded and frame 1 suspended
inside `session.run`, an arriving INIT is dispatched (nothing queues or
rejects it) and, when its load settles, line 52 replaces the global
session with `s2` while the run on `s1` is still outstanding. -/
theorem init_replaces_session_during_inference :
    (asyncRun ⟨some ⟨["in1"], ["out1"]⟩, [], []⟩
      [AsyncLabel.recvFrame 1, AsyncLabel.recvInit (.ok ⟨["in2"], ["out2"]⟩),
       AsyncLabel.finishLoad]).pendingRuns = [(⟨["in1"], ["out1"]⟩, 1)] ∧
    (asyncRun ⟨some ⟨["in1"], ["out1"]⟩, [], []⟩
      [AsyncLabel.recvFrame 1, AsyncLabel.recvInit (.ok ⟨["in2"], ["out2"]⟩),
       AsyncLabel.finishLoad]).session = some ⟨["in2"], ["out2"]⟩ ∧
    (asyncRun ⟨some ⟨["in1"], ["out1"]⟩, [], []⟩
      [AsyncLabel.recvFrame 1, AsyncLabel.recvInit (.ok ⟨["in2"], ["out2"]⟩),
       AsyncLabel.finishLoad]).session ≠ some ⟨["in1"], ["out1"]⟩ := by
  decide

/-- C10: a failing load after a successful one keeps the old session —
the catch block of `initModel` never touches `session` — so a later
PROCESS_FRAME runs inference against the retained session and never
replies "Model not initialized". -/
theorem failed_reload_retains_session (st : WorkerState) (s : Session)
    (hs : st.session = some s) (cause : String) (d : FrameData)
    (results : RunResults) (now : Nat → ℚ) :
    (initModel st (.error cause)).state = st ∧
    (initModel st (.error cause)).state.session = some s ∧
    ((processFrame (initModel st (.error cause)).state d (.ok results) now).runCalls.map
      RunCall.sess = [s]) ∧
    ∀ m ∈ (processFrame (initModel st (.error cause)).state d (.ok results) now).sent,
      m ≠ OutMsg.error "Model not initialized" none := by
  refine ⟨rfl, hs, ?_, ?_⟩ <;>
    · rw [show (initModel st (.error cause)).state = st from rfl]
      unfold processFrame
      rw [hs]
      cases h : results.lookup (jsIndex0 s.outputNames) <;> simp [h]

/-- C10 witness: the theorem at a concrete loaded worker whose reload
fails. -/
theorem failed_reload_retains_session_witness :
    (⟨some ⟨["images"], ["output0"]⟩⟩ : WorkerState).session =
      some ⟨["images"], ["output0"]⟩ ∧
    ((initModel ⟨some ⟨["images"], ["output0"]⟩⟩ (.error "corrupt")).state =
      ⟨some ⟨["images"], ["output0"]⟩⟩ ∧
    (initModel ⟨some ⟨["images"], ["output0"]⟩⟩ (.error "corrupt")).state.session =
      some ⟨["images"], ["output0"]⟩ ∧
    ((processFrame (initModel ⟨some ⟨["images"], ["output0"]⟩⟩ (.error "corrupt")).state
        ⟨⟨[0, 0, 0, 0], 1, 1⟩, 4, 0⟩ (.ok []) (fun _ => 0)).runCalls.map RunCall.sess =
      [⟨["images"], ["output0"]⟩]) ∧
    ∀ m ∈ (processFrame (initModel ⟨some ⟨["images"], ["output0"]⟩⟩
        (.error "corrupt")).state ⟨⟨[0, 0, 0, 0], 1, 1⟩, 4, 0⟩ (.ok [])
        (fun _ => 0)).sent,
      m ≠ OutMsg.error "Model not initialized" none) :=
  ⟨rfl, failed_reload_retains_session ⟨some ⟨["images"], ["output0"]⟩⟩
    ⟨["images"], ["output0"]⟩ rfl "corrupt" ⟨⟨[0, 0, 0, 0], 1, 1⟩, 4, 0⟩ []
    (fun _ => 0)⟩

end DetectionWorker
